import Mathlib

/-!
Shallow embedding of the clipcat clipboard watcher
(`src/crates/server/src/watcher/mod.rs`).

Clipboard content is modelled as a list of bytes; backend loads and the
liveness of broadcast receivers are scripted inputs.  The background task is
embedded as a pure initial-load pass followed by a step function consumed one
change notification at a time, mirroring the Rust control flow line by line.
-/

namespace Clipcat

/-- Clipboard content as raw bytes; `len()` is the list length. -/
abbrev Content := List Nat

/-- `clipcat::ClipboardKind`: the two selections the watcher can monitor. -/
inductive ClipboardKind
  | Clipboard
  | Primary
deriving DecidableEq, Repr

/-- `clipcat::ClipboardWatcherState`. -/
inductive ClipboardWatcherState
  | Enabled
  | Disabled
deriving DecidableEq, Repr

/-- `clipcat::ClipEntry` as far as the watcher constructs it: content plus kind
(`ClipEntry::from_clipboard_content(data, kind)`). -/
structure ClipEntry where
  content : Content
  kind : ClipboardKind
deriving DecidableEq, Repr

/-- `crate::backend::Error`: the variants the watcher matches on, with `Other`
standing for every remaining variant (the catch-all arm of the source match). -/
inductive BackendError
  | EmptyClipboard
  | MatchMime
  | UnknownContentType
  | UnsupportedClipboardKind
  | Other (code : Nat)
deriving DecidableEq, Repr

/-- `watcher::error::Error`: how the background task can fail. -/
inductive Error
  | Backend (error : BackendError)
  | SendClipEntry
  | SubscriberClosed
deriving DecidableEq, Repr

/-- `ClipboardWatcherOptions` (src lines 25-33). -/
structure ClipboardWatcherOptions where
  load_current : Bool
  enable_clipboard : Bool
  enable_primary : Bool
  filter_min_size : Nat
deriving DecidableEq, Repr

/-- `ClipboardWatcherOptions::default` (src lines 35-44). -/
def ClipboardWatcherOptions.default : ClipboardWatcherOptions :=
  ClipboardWatcherOptions.mk true true true 1

/-- The watch set `enabled_kinds` derived in `ClipboardWatcher::new`
(src lines 57-73): `Clipboard` pushed first when enabled, then `Primary`. -/
def enabledKinds (opts : ClipboardWatcherOptions) : List ClipboardKind :=
  (if opts.enable_clipboard then [ClipboardKind.Clipboard] else []) ++
  (if opts.enable_primary then [ClipboardKind.Primary] else [])

/-- The dedup cache `current_data : HashMap<ClipboardKind, _>`.  Since the key
type has exactly two inhabitants, the map is a pair of optional entries. -/
structure Cache where
  clipboard : Option Content
  primary : Option Content
deriving DecidableEq, Repr

/-- `current_data.get(&kind)`. -/
def Cache.get (c : Cache) : ClipboardKind → Option Content
  | ClipboardKind.Clipboard => c.clipboard
  | ClipboardKind.Primary => c.primary

/-- `current_data.insert(kind, data)`. -/
def Cache.insert (c : Cache) (k : ClipboardKind) (v : Content) : Cache :=
  match k with
  | ClipboardKind.Clipboard => Cache.mk (some v) c.primary
  | ClipboardKind.Primary => Cache.mk c.clipboard (some v)

/-- `HashMap::new()` (src line 84). -/
def Cache.empty : Cache := Cache.mk none none

/-- Observable effect of processing one unit of work in the task:
the cache afterwards, the entries actually delivered on the broadcast channel,
whether `backend.load` was attempted, and whether the task returned `Err`. -/
structure StepResult where
  cache : Cache
  published : List ClipEntry
  loaded : Bool
  halt : Option Error
deriving DecidableEq, Repr

/-- Insert-then-send, the shared tail of both publish sites
(src lines 90-96 and 140-148): the cache is overwritten first, then
`clip_sender.send` succeeds only when a live receiver exists, and a failed
send terminates the task with `Error::SendClipEntry`. -/
def publishStep (cache : Cache) (kind : ClipboardKind) (data : Content)
    (hasReceiver : Bool) : StepResult :=
  let cache' := cache.insert kind data
  if hasReceiver then
    StepResult.mk cache' [ClipEntry.mk data kind] true none
  else
    StepResult.mk cache' [] true (some Error.SendClipEntry)

/-- One iteration of the initial-load pass for one kind (src lines 86-107). -/
def initialStep (filter_min_size : Nat)
    (load : ClipboardKind → Except BackendError Content) (hasReceiver : Bool)
    (cache : Cache) (kind : ClipboardKind) : StepResult :=
  match load kind with
  | Except.ok data =>
    if data.length > filter_min_size then
      publishStep cache kind data hasReceiver
    else
      StepResult.mk cache [] true none
  | Except.error BackendError.EmptyClipboard => StepResult.mk cache [] true none
  | Except.error BackendError.MatchMime => StepResult.mk cache [] true none
  | Except.error BackendError.UnknownContentType => StepResult.mk cache [] true none
  | Except.error BackendError.UnsupportedClipboardKind => StepResult.mk cache [] true none
  | Except.error e => StepResult.mk cache [] true (some (Error.Backend e))

/-- Result of running the initial-load pass over the watch set:
final cache, delivered entries, the kinds loaded in order, and the error the
task returned with, if any. -/
structure InitResult where
  cache : Cache
  published : List ClipEntry
  loads : List ClipboardKind
  halt : Option Error
deriving DecidableEq, Repr

/-- The initial-load pass `for &kind in &enabled_kinds` (src lines 85-108):
each kind in order, stopping only when an iteration returns an error. -/
def initialPass (filter_min_size : Nat)
    (load : ClipboardKind → Except BackendError Content) (hasReceiver : Bool) :
    Cache → List ClipboardKind → InitResult
  | cache, [] => InitResult.mk cache [] [] none
  | cache, kind :: kinds =>
    let r := initialStep filter_min_size load hasReceiver cache kind
    match r.halt with
    | some e => InitResult.mk r.cache r.published [kind] (some e)
    | none =>
      let rest := initialPass filter_min_size load hasReceiver r.cache kinds
      InitResult.mk rest.cache (r.published ++ rest.published) (kind :: rest.loads) rest.halt

/-- One delivery of the backend notification stream, together with the scripted
environment at the moment it is processed: the value the `is_watching` flag
reads, what `backend.load` would return if called, and whether a live broadcast
receiver exists at send time. -/
structure Arrival where
  kind : ClipboardKind
  watching : Bool
  loadResult : Except BackendError Content
  hasReceiver : Bool

/-- One iteration of the steady-state loop body for a received notification
(src lines 113-149).  Note the ignorable-error arm here (lines 126-130) lists
only `EmptyClipboard`, `MatchMime` and `UnknownContentType`;
`UnsupportedClipboardKind` falls into the catch-all fatal arm. -/
def stepArrival (filter_min_size : Nat) (enabled_kinds : List ClipboardKind)
    (cache : Cache) (a : Arrival) : StepResult :=
  if a.watching = true ∧ a.kind ∈ enabled_kinds then
    match a.loadResult with
    | Except.ok new_data =>
      if new_data.length > filter_min_size then
        match cache.get a.kind with
        | some current_data =>
          if new_data ≠ current_data then
            publishStep cache a.kind new_data a.hasReceiver
          else
            StepResult.mk cache [] true none
        | none => publishStep cache a.kind new_data a.hasReceiver
      else
        StepResult.mk cache [] true none
    | Except.error BackendError.EmptyClipboard => StepResult.mk cache [] true none
    | Except.error BackendError.MatchMime => StepResult.mk cache [] true none
    | Except.error BackendError.UnknownContentType => StepResult.mk cache [] true none
    | Except.error e => StepResult.mk cache [] true (some (Error.Backend e))
  else
    StepResult.mk cache [] false none

/-- Whether the loop is still blocked on the next notification, or has
terminated with an error. -/
inductive LoopOutcome
  | running
  | halted (e : Error)
deriving DecidableEq, Repr

/-- Accumulated observable behaviour of the steady-state loop over a finite
prefix of the notification stream. -/
structure RunResult where
  cache : Cache
  published : List ClipEntry
  outcome : LoopOutcome
deriving DecidableEq, Repr

/-- The steady-state loop (src lines 110-150) run over a finite list of
arrivals; a fatal iteration stops consumption. -/
def runLoop (filter_min_size : Nat) (enabled_kinds : List ClipboardKind) :
    Cache → List Arrival → RunResult
  | cache, [] => RunResult.mk cache [] LoopOutcome.running
  | cache, a :: as =>
    let r := stepArrival filter_min_size enabled_kinds cache a
    match r.halt with
    | some e => RunResult.mk r.cache r.published (LoopOutcome.halted e)
    | none =>
      let rest := runLoop filter_min_size enabled_kinds r.cache as
      RunResult.mk rest.cache (r.published ++ rest.published) rest.outcome

/-- Observable behaviour of the whole background task body (src lines 83-151):
the initial-load phase's deliveries and load attempts, then the steady-state
loop's deliveries, with the final cache and outcome. -/
structure TaskRun where
  initPublished : List ClipEntry
  initLoads : List ClipboardKind
  loopPublished : List ClipEntry
  finalCache : Cache
  outcome : LoopOutcome
deriving DecidableEq, Repr

/-- The background task body: the initial-load pass when `load_current` is set
(src lines 85-108), then the steady-state loop (src lines 110-150). -/
def runWatcher (opts : ClipboardWatcherOptions)
    (load : ClipboardKind → Except BackendError Content) (hasReceiver : Bool)
    (arrivals : List Arrival) : TaskRun :=
  let ek := enabledKinds opts
  if opts.load_current then
    let ir := initialPass opts.filter_min_size load hasReceiver Cache.empty ek
    match ir.halt with
    | some e => TaskRun.mk ir.published ir.loads [] ir.cache (LoopOutcome.halted e)
    | none =>
      let lr := runLoop opts.filter_min_size ek ir.cache arrivals
      TaskRun.mk ir.published ir.loads lr.published lr.cache lr.outcome
  else
    let lr := runLoop opts.filter_min_size ek Cache.empty arrivals
    TaskRun.mk [] [] lr.published lr.cache lr.outcome

/-- The handle returned by `ClipboardWatcher::new`: the shared flag plus the
number of live broadcast receivers reachable from outside.  The receiver
created alongside the channel (src line 75) is not a field of the struct
(src line 154) and is gone once construction returns, so the count starts
at zero until `subscribe` is first called. -/
structure ClipboardWatcher where
  is_watching : Bool
  receivers : Nat
deriving DecidableEq, Repr

/-- The handle as `ClipboardWatcher::new` returns it (src lines 76, 154). -/
def newWatcher : ClipboardWatcher := ClipboardWatcher.mk true 0

/-- `ClipboardWatcher::subscribe` (src line 158): one more live receiver. -/
def subscribeWatcher (w : ClipboardWatcher) : ClipboardWatcher :=
  ClipboardWatcher.mk w.is_watching (w.receivers + 1)

/-- `ClipboardWatcher::enable` (src lines 161-164). -/
def enable (w : ClipboardWatcher) : ClipboardWatcher :=
  ClipboardWatcher.mk true w.receivers

/-- `ClipboardWatcher::disable` (src lines 167-170). -/
def disable (w : ClipboardWatcher) : ClipboardWatcher :=
  ClipboardWatcher.mk false w.receivers

/-- `ClipboardWatcher::is_watching` (src line 182). -/
def isWatching (w : ClipboardWatcher) : Bool := w.is_watching

/-- `ClipboardWatcher::toggle` (src lines 173-179). -/
def toggle (w : ClipboardWatcher) : ClipboardWatcher :=
  if isWatching w then disable w else enable w

/-- `ClipboardWatcher::state` (src lines 185-191). -/
def state (w : ClipboardWatcher) : ClipboardWatcherState :=
  if isWatching w then ClipboardWatcherState.Enabled else ClipboardWatcherState.Disabled

/-- The bytes of the string used in the spec scenario. -/
def helloContent : Content := [104, 101, 108, 108, 111]

/-- The bytes of the string used in the disable/enable spec scenario. -/
def xyzContent : Content := [120, 121, 122]

/-- A concrete qualifying arrival used by witnesses. -/
def arrivalHello : Arrival :=
  Arrival.mk ClipboardKind.Clipboard true (Except.ok helloContent) true

/-- The size-filter invariant on the dedup cache: every entry strictly exceeds
`filter_min_size`. -/
def CacheInv (filter_min_size : Nat) (cache : Cache) : Prop :=
  ∀ k c, cache.get k = some c → c.length > filter_min_size

lemma get_insert (cache : Cache) (k k' : ClipboardKind) (v : Content) :
    (cache.insert k v).get k' = if k' = k then some v else cache.get k' := by
  cases k <;> cases k' <;> simp [Cache.insert, Cache.get]

lemma stepArrival_skip (fms : Nat) (ek : List ClipboardKind) (cache : Cache) (a : Arrival)
    (h : ¬ (a.watching = true ∧ a.kind ∈ ek)) :
    stepArrival fms ek cache a = StepResult.mk cache [] false none := by
  simp [stepArrival, h]

lemma stepArrival_ok_small (fms : Nat) (ek : List ClipboardKind) (cache : Cache)
    (a : Arrival) (c : Content) (hw : a.watching = true) (hk : a.kind ∈ ek)
    (hl : a.loadResult = Except.ok c) (hlen : ¬ c.length > fms) :
    stepArrival fms ek cache a = StepResult.mk cache [] true none := by
  simp [stepArrival, hw, hk, hl, hlen]

lemma stepArrival_dup (fms : Nat) (ek : List ClipboardKind) (cache : Cache)
    (a : Arrival) (c : Content) (hw : a.watching = true) (hk : a.kind ∈ ek)
    (hl : a.loadResult = Except.ok c) (hlen : c.length > fms)
    (hget : cache.get a.kind = some c) :
    stepArrival fms ek cache a = StepResult.mk cache [] true none := by
  simp [stepArrival, hw, hk, hl, hlen, hget]

lemma stepArrival_new (fms : Nat) (ek : List ClipboardKind) (cache : Cache)
    (a : Arrival) (c : Content) (hw : a.watching = true) (hk : a.kind ∈ ek)
    (hl : a.loadResult = Except.ok c) (hlen : c.length > fms)
    (hget : ¬ cache.get a.kind = some c) :
    stepArrival fms ek cache a = publishStep cache a.kind c a.hasReceiver := by
  rcases hcur : cache.get a.kind with _ | cur
  · simp [stepArrival, hw, hk, hl, hlen, hcur]
  · have hne : c ≠ cur := by
      intro h
      exact hget (h ▸ hcur)
    simp [stepArrival, hw, hk, hl, hlen, hcur, hne]

lemma stepArrival_err_ignorable (fms : Nat) (ek : List ClipboardKind) (cache : Cache)
    (a : Arrival) (e : BackendError) (hw : a.watching = true) (hk : a.kind ∈ ek)
    (hl : a.loadResult = Except.error e)
    (he : e = BackendError.EmptyClipboard ∨ e = BackendError.MatchMime ∨
          e = BackendError.UnknownContentType) :
    stepArrival fms ek cache a = StepResult.mk cache [] true none := by
  rcases he with rfl | rfl | rfl <;> simp [stepArrival, hw, hk, hl]

lemma stepArrival_err_fatal (fms : Nat) (ek : List ClipboardKind) (cache : Cache)
    (a : Arrival) (e : BackendError) (hw : a.watching = true) (hk : a.kind ∈ ek)
    (hl : a.loadResult = Except.error e)
    (h1 : e ≠ BackendError.EmptyClipboard) (h2 : e ≠ BackendError.MatchMime)
    (h3 : e ≠ BackendError.UnknownContentType) :
    stepArrival fms ek cache a
      = StepResult.mk cache [] true (some (Error.Backend e)) := by
  cases e
  · exact absurd rfl h1
  · exact absurd rfl h2
  · exact absurd rfl h3
  · simp [stepArrival, hw, hk, hl]
  · simp [stepArrival, hw, hk, hl]

lemma initialStep_ok_small (fms : Nat) (load : ClipboardKind → Except BackendError Content)
    (hr : Bool) (cache : Cache) (kind : ClipboardKind) (c : Content)
    (hl : load kind = Except.ok c) (hlen : ¬ c.length > fms) :
    initialStep fms load hr cache kind = StepResult.mk cache [] true none := by
  simp [initialStep, hl, hlen]

lemma initialStep_ok_large (fms : Nat) (load : ClipboardKind → Except BackendError Content)
    (hr : Bool) (cache : Cache) (kind : ClipboardKind) (c : Content)
    (hl : load kind = Except.ok c) (hlen : c.length > fms) :
    initialStep fms load hr cache kind = publishStep cache kind c hr := by
  simp [initialStep, hl, hlen]

lemma initialStep_err_ignorable (fms : Nat) (load : ClipboardKind → Except BackendError Content)
    (hr : Bool) (cache : Cache) (kind : ClipboardKind) (e : BackendError)
    (hl : load kind = Except.error e)
    (he : e = BackendError.EmptyClipboard ∨ e = BackendError.MatchMime ∨
          e = BackendError.UnknownContentType ∨ e = BackendError.UnsupportedClipboardKind) :
    initialStep fms load hr cache kind = StepResult.mk cache [] true none := by
  rcases he with rfl | rfl | rfl | rfl <;> simp [initialStep, hl]

lemma initialStep_err_fatal (fms : Nat) (load : ClipboardKind → Except BackendError Content)
    (hr : Bool) (cache : Cache) (kind : ClipboardKind) (code : Nat)
    (hl : load kind = Except.error (BackendError.Other code)) :
    initialStep fms load hr cache kind
      = StepResult.mk cache [] true (some (Error.Backend (BackendError.Other code))) := by
  simp [initialStep, hl]

lemma runLoop_skips (fms : Nat) (ek : List ClipboardKind) (ds rest : List Arrival) :
    ∀ cache : Cache, (∀ d ∈ ds, ¬ (d.watching = true ∧ d.kind ∈ ek)) →
    runLoop fms ek cache (ds ++ rest) = runLoop fms ek cache rest := by
  induction ds with
  | nil => intro cache _; simp
  | cons d ds ih =>
    intro cache h
    have hs := stepArrival_skip fms ek cache d (h d (by simp))
    have hrec := ih cache (fun x hx => h x (by simp [hx]))
    simp only [List.cons_append, runLoop, hs]
    simp only [List.append_eq] at hrec ⊢
    rw [hrec]
    simp

lemma runLoop_dup_const (fms : Nat) (ek : List ClipboardKind) (a : Arrival) (c : Content)
    (hw : a.watching = true) (hk : a.kind ∈ ek) (hl : a.loadResult = Except.ok c)
    (hlen : c.length > fms) (ns : List Arrival) (hall : ∀ m ∈ ns, m = a) :
    ∀ cache : Cache, cache.get a.kind = some c →
    runLoop fms ek cache ns = RunResult.mk cache [] LoopOutcome.running := by
  induction ns with
  | nil => intro cache _; rfl
  | cons m ms ih =>
    intro cache hget
    have hm : m = a := hall m (by simp)
    subst hm
    have hs := stepArrival_dup fms ek cache m c hw hk hl hlen hget
    simp only [runLoop, hs]
    rw [ih (fun x hx => hall x (by simp [hx])) cache hget]
    simp

lemma initialPass_loads (fms : Nat) (load : ClipboardKind → Except BackendError Content)
    (hr : Bool) : ∀ (kinds : List ClipboardKind) (cache : Cache),
    (initialPass fms load hr cache kinds).halt = none →
    (initialPass fms load hr cache kinds).loads = kinds := by
  intro kinds
  induction kinds with
  | nil => intro cache _; rfl
  | cons k ks ih =>
    intro cache h
    rcases hh : (initialStep fms load hr cache k).halt with _ | e
    · simp only [initialPass, hh] at h ⊢
      rw [ih _ h]
    · simp only [initialPass, hh] at h
      simp at h

lemma cacheInv_empty (fms : Nat) : CacheInv fms Cache.empty := by
  intro k c h
  cases k <;> simp [Cache.get, Cache.empty] at h

lemma cacheInv_insert (fms : Nat) (cache : Cache) (k : ClipboardKind) (v : Content)
    (hc : CacheInv fms cache) (hv : v.length > fms) : CacheInv fms (cache.insert k v) := by
  intro k' c h
  rw [get_insert] at h
  split at h
  · injection h with h
    exact h ▸ hv
  · exact hc k' c h

lemma cacheInv_publishStep (fms : Nat) (cache : Cache) (kind : ClipboardKind)
    (data : Content) (hr : Bool) (hc : CacheInv fms cache) (hd : data.length > fms) :
    CacheInv fms (publishStep cache kind data hr).cache := by
  cases hr <;> simpa [publishStep] using cacheInv_insert fms cache kind data hc hd

lemma cacheInv_initialStep (fms : Nat) (load : ClipboardKind → Except BackendError Content)
    (hr : Bool) (cache : Cache) (kind : ClipboardKind) (hc : CacheInv fms cache) :
    CacheInv fms (initialStep fms load hr cache kind).cache := by
  rcases hl : load kind with e | c
  · cases e <;> simpa [initialStep, hl] using hc
  · by_cases hlen : c.length > fms
    · rw [initialStep_ok_large fms load hr cache kind c hl hlen]
      exact cacheInv_publishStep fms cache kind c hr hc hlen
    · rw [initialStep_ok_small fms load hr cache kind c hl hlen]
      exact hc

lemma cacheInv_stepArrival (fms : Nat) (ek : List ClipboardKind) (cache : Cache)
    (a : Arrival) (hc : CacheInv fms cache) :
    CacheInv fms (stepArrival fms ek cache a).cache := by
  by_cases hg : a.watching = true ∧ a.kind ∈ ek
  · rcases hl : a.loadResult with e | c
    · cases e <;> simpa [stepArrival, hg.1, hg.2, hl] using hc
    · by_cases hlen : c.length > fms
      · by_cases hget : cache.get a.kind = some c
        · rw [stepArrival_dup fms ek cache a c hg.1 hg.2 hl hlen hget]
          exact hc
        · rw [stepArrival_new fms ek cache a c hg.1 hg.2 hl hlen hget]
          exact cacheInv_publishStep fms cache a.kind c a.hasReceiver hc hlen
      · rw [stepArrival_ok_small fms ek cache a c hg.1 hg.2 hl hlen]
        exact hc
  · rw [stepArrival_skip fms ek cache a hg]
    exact hc

lemma cacheInv_initialPass (fms : Nat) (load : ClipboardKind → Except BackendError Content)
    (hr : Bool) : ∀ (kinds : List ClipboardKind) (cache : Cache), CacheInv fms cache →
    CacheInv fms (initialPass fms load hr cache kinds).cache := by
  intro kinds
  induction kinds with
  | nil => intro cache hc; exact hc
  | cons k ks ih =>
    intro cache hc
    have hstep := cacheInv_initialStep fms load hr cache k hc
    rcases hh : (initialStep fms load hr cache k).halt with _ | e
    · simp only [initialPass, hh]
      exact ih _ hstep
    · simp only [initialPass, hh]
      exact hstep

lemma cacheInv_runLoop (fms : Nat) (ek : List ClipboardKind) :
    ∀ (as : List Arrival) (cache : Cache), CacheInv fms cache →
    CacheInv fms (runLoop fms ek cache as).cache := by
  intro as
  induction as with
  | nil => intro cache hc; exact hc
  | cons a as ih =>
    intro cache hc
    have hstep := cacheInv_stepArrival fms ek cache a hc
    rcases hh : (stepArrival fms ek cache a).halt with _ | e
    · simp only [runLoop, hh]
      exact ih _ hstep
    · simp only [runLoop, hh]
      exact hstep

lemma cacheInv_runWatcher (opts : ClipboardWatcherOptions)
    (load : ClipboardKind → Except BackendError Content) (hr : Bool)
    (arrivals : List Arrival) :
    CacheInv opts.filter_min_size (runWatcher opts load hr arrivals).finalCache := by
  by_cases hcur : opts.load_current = true
  · have hinit := cacheInv_initialPass opts.filter_min_size load hr (enabledKinds opts)
      Cache.empty (cacheInv_empty _)
    rcases hh : (initialPass opts.filter_min_size load hr Cache.empty (enabledKinds opts)).halt
      with _ | e
    · simp only [runWatcher, hcur, if_true, hh]
      exact cacheInv_runLoop _ _ _ _ hinit
    · simp only [runWatcher, hcur, if_true, hh]
      exact hinit
  · simp only [runWatcher, hcur, if_false]
    exact cacheInv_runLoop _ _ _ _ (cacheInv_empty _)

/-- Claim C8: `enable` and `disable` are idempotent (calling `enable` when
`is_watching` already reads true leaves the observable state unchanged, and
likewise for `disable`), and `toggle` inverts the flag: after `toggle`,
`state` is `Disabled` if it was `Enabled` and `Enabled` if it was `Disabled`,
so `toggle` applied twice restores the original state. -/
theorem control_surface_algebra (w : ClipboardWatcher) :
    enable (enable w) = enable w
    ∧ disable (disable w) = disable w
    ∧ (isWatching w = true → enable w = w)
    ∧ (isWatching w = false → disable w = w)
    ∧ state (toggle w)
        = (if state w = ClipboardWatcherState.Enabled then ClipboardWatcherState.Disabled
           else ClipboardWatcherState.Enabled)
    ∧ toggle (toggle w) = w := by
  cases w with
  | mk b r => cases b <;> simp [enable, disable, toggle, isWatching, state]

/-- Witness for C8 at the freshly constructed watcher. -/
theorem control_surface_algebra_witness :
    enable newWatcher = newWatcher ∧ toggle (toggle newWatcher) = newWatcher :=
  ⟨(control_surface_algebra newWatcher).2.2.1 rfl,
   (control_surface_algebra newWatcher).2.2.2.2.2⟩

/-- Counterexample to C3 as stated: in the steady-state loop a load failing
with `UnsupportedClipboardKind` does not let the loop continue — it terminates
the task with a `Backend` error, because the steady-state ignorable arm
(src lines 126-130) omits that variant. -/
theorem steady_unsupported_kind_fatal_cex :
    stepArrival 1 [ClipboardKind.Clipboard] Cache.empty
        (Arrival.mk ClipboardKind.Clipboard true
          (Except.error BackendError.UnsupportedClipboardKind) true)
      = StepResult.mk Cache.empty [] true
          (some (Error.Backend BackendError.UnsupportedClipboardKind)) := by
  decide

/-- Claim C3 (amended): in the initial-load pass, empty clipboard, unmatched
MIME, unknown content type and unsupported clipboard kind are all ignorable
and the pass continues, while any other load error terminates the task with a
`Backend` error; in the steady-state loop only the first three are ignorable,
and `UnsupportedClipboardKind` — like every other load error — terminates the
task with a `Backend` error. -/
theorem load_error_classification :
    (∀ fms load hr cache kind e, load kind = Except.error e →
        (e = BackendError.EmptyClipboard ∨ e = BackendError.MatchMime ∨
         e = BackendError.UnknownContentType ∨ e = BackendError.UnsupportedClipboardKind) →
        initialStep fms load hr cache kind = StepResult.mk cache [] true none)
    ∧ (∀ fms load hr cache kind code,
        load kind = Except.error (BackendError.Other code) →
        initialStep fms load hr cache kind
          = StepResult.mk cache [] true (some (Error.Backend (BackendError.Other code))))
    ∧ (∀ fms ek cache a e, a.watching = true → a.kind ∈ ek →
        a.loadResult = Except.error e →
        (e = BackendError.EmptyClipboard ∨ e = BackendError.MatchMime ∨
         e = BackendError.UnknownContentType) →
        stepArrival fms ek cache a = StepResult.mk cache [] true none)
    ∧ (∀ fms ek cache a e, a.watching = true → a.kind ∈ ek →
        a.loadResult = Except.error e →
        e ≠ BackendError.EmptyClipboard → e ≠ BackendError.MatchMime →
        e ≠ BackendError.UnknownContentType →
        stepArrival fms ek cache a
          = StepResult.mk cache [] true (some (Error.Backend e))) :=
  ⟨fun fms load hr cache kind e hl he =>
      initialStep_err_ignorable fms load hr cache kind e hl he,
   fun fms load hr cache kind code hl =>
      initialStep_err_fatal fms load hr cache kind code hl,
   fun fms ek cache a e hw hk hl he =>
      stepArrival_err_ignorable fms ek cache a e hw hk hl he,
   fun fms ek cache a e hw hk hl h1 h2 h3 =>
      stepArrival_err_fatal fms ek cache a e hw hk hl h1 h2 h3⟩

/-- Witness for C3 (amended): `UnsupportedClipboardKind` ignored in the
initial pass, `EmptyClipboard` ignored in the steady-state loop. -/
theorem load_error_classification_witness :
    initialStep 1 (fun _ => Except.error BackendError.UnsupportedClipboardKind) true
        Cache.empty ClipboardKind.Clipboard = StepResult.mk Cache.empty [] true none
    ∧ stepArrival 1 [ClipboardKind.Clipboard] Cache.empty
        (Arrival.mk ClipboardKind.Clipboard true
          (Except.error BackendError.EmptyClipboard) true)
      = StepResult.mk Cache.empty [] true none :=
  ⟨load_error_classification.1 1 _ true Cache.empty ClipboardKind.Clipboard
      BackendError.UnsupportedClipboardKind rfl (by simp),
   load_error_classification.2.2.1 1 [ClipboardKind.Clipboard] Cache.empty _
      BackendError.EmptyClipboard rfl (by simp) rfl (by simp)⟩

/-- Claim C7: every entry of the dedup cache maps a kind to content whose
length strictly exceeds `filter_min_size`: the empty starting cache satisfies
the invariant, every step of either phase preserves it, and the final cache of
any complete run satisfies it. -/
theorem dedup_cache_size_invariant :
    (∀ fms, CacheInv fms Cache.empty)
    ∧ (∀ fms load hr cache kind, CacheInv fms cache →
        CacheInv fms (initialStep fms load hr cache kind).cache)
    ∧ (∀ fms ek cache a, CacheInv fms cache →
        CacheInv fms (stepArrival fms ek cache a).cache)
    ∧ (∀ fms load hr kinds cache, CacheInv fms cache →
        CacheInv fms (initialPass fms load hr cache kinds).cache)
    ∧ (∀ fms ek as cache, CacheInv fms cache →
        CacheInv fms (runLoop fms ek cache as).cache)
    ∧ (∀ opts load hr arrivals,
        CacheInv opts.filter_min_size (runWatcher opts load hr arrivals).finalCache) :=
  ⟨cacheInv_empty,
   fun fms load hr cache kind hc => cacheInv_initialStep fms load hr cache kind hc,
   fun fms ek cache a hc => cacheInv_stepArrival fms ek cache a hc,
   fun fms load hr kinds cache hc => cacheInv_initialPass fms load hr kinds cache hc,
   fun fms ek as cache hc => cacheInv_runLoop fms ek as cache hc,
   cacheInv_runWatcher⟩

/-- Witness for C7 after a concrete qualifying step from the empty cache. -/
theorem dedup_cache_size_invariant_witness :
    CacheInv 1 (stepArrival 1 [ClipboardKind.Clipboard] Cache.empty arrivalHello).cache :=
  dedup_cache_size_invariant.2.2.1 1 [ClipboardKind.Clipboard] Cache.empty arrivalHello
    (dedup_cache_size_invariant.1 1)

/-- Claim C10: in the steady-state loop the dedup cache is overwritten with
the new content before the broadcast send is attempted, so when the send
fails the task terminates with `SendClipEntry` while the cache already holds
the content that was never delivered. -/
theorem cache_updated_before_failed_send (fms : Nat) (ek : List ClipboardKind)
    (cache : Cache) (a : Arrival) (c : Content)
    (hw : a.watching = true) (hk : a.kind ∈ ek) (hl : a.loadResult = Except.ok c)
    (hlen : c.length > fms) (hget : ¬ cache.get a.kind = some c)
    (hr : a.hasReceiver = false) :
    stepArrival fms ek cache a
      = StepResult.mk (cache.insert a.kind c) [] true (some Error.SendClipEntry)
    ∧ (stepArrival fms ek cache a).cache.get a.kind = some c := by
  rw [stepArrival_new fms ek cache a c hw hk hl hlen hget]
  simp [publishStep, hr, get_insert]

/-- Witness for C10 at a concrete arrival with no live receiver. -/
theorem cache_updated_before_failed_send_witness :
    stepArrival 1 [ClipboardKind.Clipboard] Cache.empty
        (Arrival.mk ClipboardKind.Clipboard true (Except.ok helloContent) false)
      = StepResult.mk (Cache.empty.insert ClipboardKind.Clipboard helloContent) [] true
          (some Error.SendClipEntry)
    ∧ (stepArrival 1 [ClipboardKind.Clipboard] Cache.empty
        (Arrival.mk ClipboardKind.Clipboard true (Except.ok helloContent) false)).cache.get
        ClipboardKind.Clipboard = some helloContent :=
  cache_updated_before_failed_send 1 [ClipboardKind.Clipboard] Cache.empty
    (Arrival.mk ClipboardKind.Clipboard true (Except.ok helloContent) false) helloContent
    rfl (by simp) rfl (by decide) (by decide) rfl

/-- Claim C5: every failure to send a `ClipEntry` on the broadcast channel
(no live receivers), in the initial-load pass or the steady-state loop,
terminates the task with the distinct `SendClipEntry` error; the run stops
there, delivering nothing, rather than retrying or ignoring the failure. -/
theorem send_failure_fatal :
    (∀ fms load cache kind c, load kind = Except.ok c → c.length > fms →
        initialStep fms load false cache kind
          = StepResult.mk (cache.insert kind c) [] true (some Error.SendClipEntry))
    ∧ (∀ fms ek cache a c, a.watching = true → a.kind ∈ ek →
        a.loadResult = Except.ok c → c.length > fms → ¬ cache.get a.kind = some c →
        a.hasReceiver = false →
        stepArrival fms ek cache a
          = StepResult.mk (cache.insert a.kind c) [] true (some Error.SendClipEntry))
    ∧ (∀ fms ek cache a c as, a.watching = true → a.kind ∈ ek →
        a.loadResult = Except.ok c → c.length > fms → ¬ cache.get a.kind = some c →
        a.hasReceiver = false →
        (runLoop fms ek cache (a :: as)).outcome = LoopOutcome.halted Error.SendClipEntry
        ∧ (runLoop fms ek cache (a :: as)).published = [])
    ∧ (∀ fms load cache kind kinds c, load kind = Except.ok c → c.length > fms →
        (initialPass fms load false cache (kind :: kinds)).halt = some Error.SendClipEntry
        ∧ (initialPass fms load false cache (kind :: kinds)).published = []) := by
  have hinit : ∀ fms load cache kind c, load kind = Except.ok c → c.length > fms →
      initialStep fms load false cache kind
        = StepResult.mk (cache.insert kind c) [] true (some Error.SendClipEntry) := by
    intro fms load cache kind c hl hlen
    rw [initialStep_ok_large fms load false cache kind c hl hlen]
    simp [publishStep]
  have hstep : ∀ fms ek cache a c, a.watching = true → a.kind ∈ ek →
      a.loadResult = Except.ok c → c.length > fms → ¬ cache.get a.kind = some c →
      a.hasReceiver = false →
      stepArrival fms ek cache a
        = StepResult.mk (cache.insert a.kind c) [] true (some Error.SendClipEntry) := by
    intro fms ek cache a c hw hk hl hlen hget hr
    rw [stepArrival_new fms ek cache a c hw hk hl hlen hget]
    simp [publishStep, hr]
  refine ⟨hinit, hstep, ?_, ?_⟩
  · intro fms ek cache a c as hw hk hl hlen hget hr
    have h := hstep fms ek cache a c hw hk hl hlen hget hr
    constructor <;> simp [runLoop, h]
  · intro fms load cache kind kinds c hl hlen
    have h := hinit fms load cache kind c hl hlen
    constructor <;> simp [initialPass, h]

/-- Witness for C5: an unsubscribed channel makes the initial pass halt with
`SendClipEntry` without delivering anything. -/
theorem send_failure_fatal_witness :
    (initialPass 1 (fun _ => Except.ok helloContent) false Cache.empty
        [ClipboardKind.Clipboard]).halt = some Error.SendClipEntry
    ∧ (initialPass 1 (fun _ => Except.ok helloContent) false Cache.empty
        [ClipboardKind.Clipboard]).published = [] :=
  send_failure_fatal.2.2.2 1 (fun _ => Except.ok helloContent) Cache.empty
    ClipboardKind.Clipboard [] helloContent rfl (by decide)

/-- Claim C2: content at or below `filter_min_size` is never published and
never updates the dedup cache, in either phase; and whenever either phase
publishes, the loaded content was strictly larger than `filter_min_size`. -/
theorem size_filter_no_publish :
    (∀ fms load hr cache kind c, load kind = Except.ok c → c.length ≤ fms →
        initialStep fms load hr cache kind = StepResult.mk cache [] true none)
    ∧ (∀ fms ek cache a c, a.watching = true → a.kind ∈ ek →
        a.loadResult = Except.ok c → c.length ≤ fms →
        stepArrival fms ek cache a = StepResult.mk cache [] true none)
    ∧ (∀ fms ek cache a, (stepArrival fms ek cache a).published ≠ [] →
        ∃ c, a.loadResult = Except.ok c ∧ c.length > fms)
    ∧ (∀ fms load hr cache kind, (initialStep fms load hr cache kind).published ≠ [] →
        ∃ c, load kind = Except.ok c ∧ c.length > fms) := by
  refine ⟨?_, ?_, ?_, ?_⟩
  · intro fms load hr cache kind c hl hlen
    exact initialStep_ok_small fms load hr cache kind c hl (by omega)
  · intro fms ek cache a c hw hk hl hlen
    exact stepArrival_ok_small fms ek cache a c hw hk hl (by omega)
  · intro fms ek cache a hp
    by_cases hg : a.watching = true ∧ a.kind ∈ ek
    · rcases hl : a.loadResult with e | c
      · cases e <;> simp [stepArrival, hg.1, hg.2, hl] at hp
      · refine ⟨c, rfl, ?_⟩
        by_cases hlen : c.length > fms
        · exact hlen
        · rw [stepArrival_ok_small fms ek cache a c hg.1 hg.2 hl hlen] at hp
          simp at hp
    · rw [stepArrival_skip fms ek cache a hg] at hp
      simp at hp
  · intro fms load hr cache kind hp
    rcases hl : load kind with e | c
    · cases e <;> simp [initialStep, hl] at hp
    · refine ⟨c, rfl, ?_⟩
      by_cases hlen : c.length > fms
      · exact hlen
      · rw [initialStep_ok_small fms load hr cache kind c hl hlen] at hp
        simp at hp

/-- Witness for C2: single-byte content is blocked by the default filter in
both phases. -/
theorem size_filter_no_publish_witness :
    initialStep 1 (fun _ => Except.ok [104]) true Cache.empty ClipboardKind.Clipboard
      = StepResult.mk Cache.empty [] true none
    ∧ stepArrival 1 [ClipboardKind.Clipboard] Cache.empty
        (Arrival.mk ClipboardKind.Clipboard true (Except.ok [104]) true)
      = StepResult.mk Cache.empty [] true none :=
  ⟨size_filter_no_publish.1 1 (fun _ => Except.ok [104]) true Cache.empty
      ClipboardKind.Clipboard [104] rfl (by decide),
   size_filter_no_publish.2.1 1 [ClipboardKind.Clipboard] Cache.empty
      (Arrival.mk ClipboardKind.Clipboard true (Except.ok [104]) true) [104]
      rfl (by simp) rfl (by decide)⟩

/-- Claim C4: a notification whose kind is outside the watch set, or arriving
while the flag reads disabled, triggers no backend load, publishes nothing and
leaves the dedup cache unchanged; any run of such notifications is invisible
to the loop, and a subsequent qualifying notification is processed against the
unchanged cache and published. -/
theorem disabled_or_unwatched_noop :
    (∀ fms ek cache a, ¬ (a.watching = true ∧ a.kind ∈ ek) →
        stepArrival fms ek cache a = StepResult.mk cache [] false none)
    ∧ (∀ fms ek cache ds rest, (∀ d ∈ ds, ¬ (d.watching = true ∧ d.kind ∈ ek)) →
        runLoop fms ek cache (ds ++ rest) = runLoop fms ek cache rest)
    ∧ (∀ fms ek cache ds a c, (∀ d ∈ ds, ¬ (d.watching = true ∧ d.kind ∈ ek)) →
        a.watching = true → a.kind ∈ ek → a.loadResult = Except.ok c →
        c.length > fms → a.hasReceiver = true → ¬ cache.get a.kind = some c →
        (runLoop fms ek cache (ds ++ [a])).published = [ClipEntry.mk c a.kind]) := by
  refine ⟨?_, ?_, ?_⟩
  · intro fms ek cache a h
    exact stepArrival_skip fms ek cache a h
  · intro fms ek cache ds rest h
    exact runLoop_skips fms ek ds rest cache h
  · intro fms ek cache ds a c hds hw hk hl hlen hr hget
    rw [runLoop_skips fms ek ds [a] cache hds]
    have hstep : stepArrival fms ek cache a
        = StepResult.mk (cache.insert a.kind c) [ClipEntry.mk c a.kind] true none := by
      rw [stepArrival_new fms ek cache a c hw hk hl hlen hget]
      simp [publishStep, hr]
    simp [runLoop, hstep]

/-- Witness for C4: the disable/enable scenario — a notification processed
while disabled changes nothing, and the same content is published once after
re-enabling. -/
theorem disabled_or_unwatched_noop_witness :
    (runLoop 1 [ClipboardKind.Clipboard] (Cache.mk (some helloContent) none)
        ([Arrival.mk ClipboardKind.Clipboard false (Except.ok xyzContent) true] ++
         [Arrival.mk ClipboardKind.Clipboard true (Except.ok xyzContent) true])).published
      = [ClipEntry.mk xyzContent ClipboardKind.Clipboard] :=
  disabled_or_unwatched_noop.2.2 1 [ClipboardKind.Clipboard]
    (Cache.mk (some helloContent) none)
    [Arrival.mk ClipboardKind.Clipboard false (Except.ok xyzContent) true]
    (Arrival.mk ClipboardKind.Clipboard true (Except.ok xyzContent) true) xyzContent
    (by intro d hd; rcases List.mem_singleton.mp hd with rfl; simp)
    rfl (by simp) rfl (by decide) rfl (by decide)

/-- Claim C1: in the steady-state loop, a watched-kind load (while enabled)
whose content passes the size filter is published iff the dedup cache has no
entry for that kind or its entry differs; on publish the cache entry is
overwritten with the new content; byte-identical content is discarded; and
over any sequence of loads returning byte-identical content for the same
kind, only the first is published. -/
theorem steady_state_dedup (fms : Nat) (ek : List ClipboardKind) (a : Arrival)
    (c : Content) (hw : a.watching = true) (hk : a.kind ∈ ek)
    (hl : a.loadResult = Except.ok c) (hlen : c.length > fms)
    (hr : a.hasReceiver = true) :
    (∀ cache : Cache,
        (stepArrival fms ek cache a).published ≠ [] ↔ ¬ cache.get a.kind = some c)
    ∧ (∀ cache : Cache, ¬ cache.get a.kind = some c →
        stepArrival fms ek cache a
          = StepResult.mk (cache.insert a.kind c) [ClipEntry.mk c a.kind] true none)
    ∧ (∀ cache : Cache, cache.get a.kind = some c →
        stepArrival fms ek cache a = StepResult.mk cache [] true none)
    ∧ (∀ (cache : Cache) (ns : List Arrival), ¬ cache.get a.kind = some c →
        (∀ m ∈ ns, m = a) → ns ≠ [] →
        (runLoop fms ek cache ns).published = [ClipEntry.mk c a.kind]) := by
  have hnew : ∀ cache : Cache, ¬ cache.get a.kind = some c →
      stepArrival fms ek cache a
        = StepResult.mk (cache.insert a.kind c) [ClipEntry.mk c a.kind] true none := by
    intro cache hget
    rw [stepArrival_new fms ek cache a c hw hk hl hlen hget]
    simp [publishStep, hr]
  have hdup : ∀ cache : Cache, cache.get a.kind = some c →
      stepArrival fms ek cache a = StepResult.mk cache [] true none :=
    fun cache hget => stepArrival_dup fms ek cache a c hw hk hl hlen hget
  refine ⟨?_, hnew, hdup, ?_⟩
  · intro cache
    by_cases hget : cache.get a.kind = some c
    · rw [hdup cache hget]
      simp [hget]
    · rw [hnew cache hget]
      simp [hget]
  · intro cache ns hget hall hne
    rcases ns with _ | ⟨m, ms⟩
    · exact absurd rfl hne
    · rcases hall m (by simp) with rfl
      have hstep := hnew cache hget
      have hget' : (cache.insert m.kind c).get m.kind = some c := by simp [get_insert]
      have hrest := runLoop_dup_const fms ek m c hw hk hl hlen ms
        (fun x hx => hall x (by simp [hx])) (cache.insert m.kind c) hget'
      simp [runLoop, hstep, hrest]

/-- Witness for C1: two consecutive identical loads publish exactly once. -/
theorem steady_state_dedup_witness :
    (runLoop 1 [ClipboardKind.Clipboard] Cache.empty [arrivalHello, arrivalHello]).published
      = [ClipEntry.mk helloContent ClipboardKind.Clipboard] :=
  (steady_state_dedup 1 [ClipboardKind.Clipboard] arrivalHello helloContent rfl (by decide)
      rfl (by decide) rfl).2.2.2 Cache.empty [arrivalHello, arrivalHello] (by decide)
    (by intro m hm; simpa using hm) (by simp)

/-- Claim C6: with `load_current` false the task attempts no backend load and
publishes nothing before the first change notification; with `load_current`
true it visits each kind of the watch set in order, and in the spec scenario
(clipboard only, filter 1, initial content "hello") it publishes exactly one
`ClipEntry` with that content and kind before any notification arrives. -/
theorem initial_load_pass_spec :
    (∀ opts load hr arrivals, opts.load_current = false →
        (runWatcher opts load hr arrivals).initPublished = []
        ∧ (runWatcher opts load hr arrivals).initLoads = [])
    ∧ (∀ fms load hr kinds cache, (initialPass fms load hr cache kinds).halt = none →
        (initialPass fms load hr cache kinds).loads = kinds)
    ∧ (∀ arrivals,
        (runWatcher (ClipboardWatcherOptions.mk true true false 1)
            (fun _ => Except.ok helloContent) true arrivals).initPublished
          = [ClipEntry.mk helloContent ClipboardKind.Clipboard]
        ∧ (runWatcher (ClipboardWatcherOptions.mk true true false 1)
            (fun _ => Except.ok helloContent) true arrivals).initLoads
          = [ClipboardKind.Clipboard]) := by
  refine ⟨?_, ?_, ?_⟩
  · intro opts load hr arrivals h
    constructor <;> simp [runWatcher, h]
  · intro fms load hr kinds cache h
    exact initialPass_loads fms load hr kinds cache h
  · intro arrivals
    exact ⟨rfl, rfl⟩

/-- Witness for C6 with `load_current` disabled and pre-existing content. -/
theorem initial_load_pass_spec_witness :
    (runWatcher (ClipboardWatcherOptions.mk false true true 1)
        (fun _ => Except.ok helloContent) true []).initPublished = []
    ∧ (runWatcher (ClipboardWatcherOptions.mk false true true 1)
        (fun _ => Except.ok helloContent) true []).initLoads = [] :=
  initial_load_pass_spec.1 (ClipboardWatcherOptions.mk false true true 1)
    (fun _ => Except.ok helloContent) true [] rfl

/-- Claim C9: the receiver created together with the broadcast channel is not
retained by the constructed handle, so before the first `subscribe` the
channel has no receivers; consequently, with `load_current` set and initial
content passing the filter, a publish attempted before any subscription makes
the task terminate with `SendClipEntry`, delivering nothing. -/
theorem unsubscribed_publish_fatal :
    newWatcher.receivers = 0
    ∧ (∀ w, (subscribeWatcher w).receivers = w.receivers + 1)
    ∧ (∀ opts load arrivals kind kinds c,
        opts.load_current = true → enabledKinds opts = kind :: kinds →
        load kind = Except.ok c → c.length > opts.filter_min_size →
        (runWatcher opts load (decide (0 < newWatcher.receivers)) arrivals).outcome
          = LoopOutcome.halted Error.SendClipEntry
        ∧ (runWatcher opts load (decide (0 < newWatcher.receivers)) arrivals).initPublished
          = []) := by
  refine ⟨rfl, fun w => rfl, ?_⟩
  intro opts load arrivals kind kinds c h1 h2 h3 h4
  have hstep : initialStep opts.filter_min_size load false Cache.empty kind
      = StepResult.mk (Cache.empty.insert kind c) [] true (some Error.SendClipEntry) := by
    rw [initialStep_ok_large opts.filter_min_size load false Cache.empty kind c h3 h4]
    simp [publishStep]
  have hfalse : (decide (0 < newWatcher.receivers)) = false := rfl
  rw [hfalse]
  constructor <;> simp [runWatcher, h1, h2, initialPass, hstep]

/-- Witness for C9 at the spec's initial-content scenario with no subscriber. -/
theorem unsubscribed_publish_fatal_witness :
    (runWatcher (ClipboardWatcherOptions.mk true true false 1)
        (fun _ => Except.ok helloContent) (decide (0 < newWatcher.receivers)) []).outcome
      = LoopOutcome.halted Error.SendClipEntry :=
  (unsubscribed_publish_fatal.2.2 (ClipboardWatcherOptions.mk true true false 1)
      (fun _ => Except.ok helloContent) [] ClipboardKind.Clipboard [] helloContent
      rfl rfl rfl (by decide)).1

end Clipcat
